import Mathlib

/-!
Shallow embedding of the Netlify serverless lead-search function
(`netlify/functions/search.js`, canonical richer variant).

The handler is modelled as a pure function of
  * the environment credential (`process.env.GOOGLE_MAPS_API_KEY`),
  * the incoming event (HTTP method, path, request body),
  * three upstream oracles standing for the network: the places text
    search, the per-place detail lookup, and the raw website fetch used
    by the email extractor.
Each oracle returns the observable outcome of the corresponding HTTP
call (success payload, thrown-error message, or network failure), typed
after the upstream interfaces documented for the providers
(`places:[...id, displayName.text, formattedAddress]`, `websiteUri`).
Besides the HTTP response, the model returns the ordered trace of
outward effects (sleeps, search/detail calls, website fetches) so that
"no upstream call is attempted" claims are expressible.

JavaScript-specific behaviour (truthiness, `String(...)` coercion,
object destructuring of non-object values, the two email regular
expressions with their backtracking and word boundaries) is embedded
explicitly below, restricted to the ASCII character classes the
regexes use.
-/

/-- JS whitespace test used by `String.prototype.trim` (ASCII-relevant part). -/
def jsWhitespace (c : Char) : Bool := c.isWhitespace

/-- Drop leading characters satisfying `p`. -/
def dropWhileL (p : Char → Bool) : List Char → List Char
  | [] => []
  | c :: cs => if p c then dropWhileL p cs else c :: cs

/-- Characters of `String.prototype.trim`: strip whitespace at both ends. -/
def jsTrimChars (cs : List Char) : List Char :=
  (dropWhileL jsWhitespace (dropWhileL jsWhitespace cs.reverse).reverse)

/-- Model of `String.prototype.trim`. -/
def jsTrim (s : String) : String := String.mk (jsTrimChars s.data)

/-- Model of `String.prototype.startsWith` restricted to a prefix test. -/
def listPrefixOf : List Char → List Char → Bool
  | [], _ => true
  | _ :: _, [] => false
  | c :: cs, d :: ds => c = d && listPrefixOf cs ds

/-- JS truthiness of a string: nonempty. -/
def strTruthy (s : String) : Bool := !s.data.isEmpty

/-- JSON values, the result type of `JSON.parse`. -/
inductive JVal : Type where
  | jnull : JVal
  | jbool : Bool → JVal
  | jnum : Int → JVal
  | jstr : String → JVal
  | jarr : List JVal → JVal
  | jobj : List (String × JVal) → JVal

/-- Property lookup on a parsed JSON object. `JSON.parse` lets a later
duplicate key overwrite an earlier one, so the last binding wins.
`none` models an absent property (JS `undefined`). -/
def jgetField (fields : List (String × JVal)) (key : String) : Option JVal :=
  match fields with
  | [] => none
  | (k, v) :: rest =>
    match jgetField rest key with
    | some w => some w
    | none => if k = key then some v else none

/-- Property lookup on a JSON value (non-objects have no properties). -/
def jprop (v : JVal) (key : String) : Option JVal :=
  match v with
  | .jobj fs => jgetField fs key
  | _ => none

/-- JS truthiness of a possibly-absent JSON value (`undefined` is falsy;
`null`, `false`, `0`, and the empty string are falsy; objects and arrays,
including the empty ones, are truthy). -/
def truthy : Option JVal → Bool
  | none => false
  | some .jnull => false
  | some (.jbool b) => b
  | some (.jnum n) => !(n == 0)
  | some (.jstr s) => strTruthy s
  | some (.jarr _) => true
  | some (.jobj _) => true

mutual
/-- JS `String(v)` coercion of a JSON value. -/
def jsToString : JVal → String
  | .jnull => "null"
  | .jbool true => "true"
  | .jbool false => "false"
  | .jnum n => toString n
  | .jstr s => s
  | .jarr xs => String.intercalate "," (jsToStringArr xs)
  | .jobj _ => "[object Object]"

/-- Array elements under `Array.prototype.toString`: `null` renders empty. -/
def jsToStringArr : List JVal → List String
  | [] => []
  | v :: vs =>
    (match v with
     | .jnull => ""
     | w => jsToString w) :: jsToStringArr vs
end

/-- JS `String(v)` where `v` may be `undefined`. -/
def jsToStringOpt : Option JVal → String
  | none => "undefined"
  | some v => jsToString v

/-! ### The two email regular expressions

`/mailto:([A-Z0-9._%+-]+@[A-Z0-9.-]+\.[A-Z]\x7b2,\x7d)/i` and
`/\b[A-Z0-9._%+-]+@[A-Z0-9.-]+\.[A-Z]\x7b2,\x7d\b/i`, embedded with
JS leftmost-match and greedy-backtracking semantics. -/

/-- Local-part character class `[A-Z0-9._%+-]` under the `i` flag. -/
def localChar (c : Char) : Bool :=
  c.isAlpha || c.isDigit || c = '.' || c = '_' || c = '%' || c = '+' || c = '-'

/-- Domain character class `[A-Z0-9.-]` under the `i` flag. -/
def domainChar (c : Char) : Bool :=
  c.isAlpha || c.isDigit || c = '.' || c = '-'

/-- ASCII letter, the class `[A-Z]` under the `i` flag. -/
def alphaChar (c : Char) : Bool := c.isAlpha

/-- Regex word character (for `\b`): letter, digit or underscore. -/
def wordChar (c : Char) : Bool := c.isAlpha || c.isDigit || c = '_'

/-- One backtracking step of the domain part: the `+` consumes the first
`k` characters of the maximal domain run `dom`, the literal dot must sit
at index `k`, and the greedy TLD `[A-Z]` at-least-2 run follows.  When
`withB` is set the trailing `\b` is checked against the character that
follows the TLD in the original text (`after` is the text following the
run `dom`).  Returns the matched domain characters. -/
def tldCheck (withB : Bool) (dom after : List Char) (k : Nat) : Option (List Char) :=
  match dom.get? k with
  | some '.' =>
    let suff := dom.drop (k + 1)
    let tld := suff.takeWhile alphaChar
    if 2 ≤ tld.length then
      if withB then
        let nextOk :=
          match suff.drop tld.length with
          | c :: _ => !wordChar c
          | [] =>
            match after with
            | c :: _ => !wordChar c
            | [] => true
        if nextOk then some (dom.take k ++ '.' :: tld) else none
      else some (dom.take k ++ '.' :: tld)
    else none
  | _ => none

/-- Greedy backtracking over the dot position: try the largest consumed
length first, counting `k` down to 1. -/
def domSearch (withB : Bool) (dom after : List Char) : Nat → Option (List Char)
  | 0 => none
  | k + 1 =>
    match tldCheck withB dom after (k + 1) with
    | some r => some r
    | none => domSearch withB dom after k

/-- Attempt to match the email-shaped token anchored at the head of `cs`:
greedy local part, `@`, then the domain with backtracking.  `withB`
additionally enforces the trailing `\b` of the bare pattern. -/
def matchEmailAt (withB : Bool) (cs : List Char) : Option (List Char) :=
  let loc := cs.takeWhile localChar
  let rest := cs.drop loc.length
  if loc.isEmpty then none
  else
    match rest with
    | '@' :: rest2 =>
      let dom := rest2.takeWhile domainChar
      let after := rest2.drop dom.length
      (match domSearch withB dom after (dom.length - 1) with
       | some dres => some (loc ++ '@' :: dres)
       | none => none)
    | _ => none

/-- Case-insensitive ASCII character comparison (the `i` flag). -/
def ciEq (a b : Char) : Bool :=
  a = b ||
  (a.isUpper && b.isLower && b.toNat = a.toNat + 32) ||
  (a.isLower && b.isUpper && a.toNat = b.toNat + 32)

/-- Strip a case-insensitive literal from the head of the text,
returning the remainder on success. -/
def ciStrip : List Char → List Char → Option (List Char)
  | [], rest => some rest
  | _ :: _, [] => none
  | p :: ps, c :: cs => if ciEq p c then ciStrip ps cs else none

/-- The literal `mailto:`. -/
def mailtoChars : List Char := ['m', 'a', 'i', 'l', 't', 'o', ':']

/-- Leftmost match of the `mailto:` pattern: scan start positions left to
right; at each, the literal must match case-insensitively and the email
token must follow.  Returns capture group 1 (the address). -/
def findMailto : List Char → Option (List Char)
  | [] => none
  | c :: cs =>
    match ciStrip mailtoChars (c :: cs) with
    | some rest =>
      (match matchEmailAt false rest with
       | some e => some e
       | none => findMailto cs)
    | none => findMailto cs

/-- Leftmost match of the bare pattern: scan start positions carrying the
word-ness of the previous character so the leading `\b` can be checked
(at the string start the previous character counts as non-word). -/
def findPlain (prevWord : Bool) : List Char → Option (List Char)
  | [] => none
  | c :: cs =>
    if prevWord != wordChar c then
      match matchEmailAt true (c :: cs) with
      | some e => some e
      | none => findPlain (wordChar c) cs
    else findPlain (wordChar c) cs

/-- Body scan of `findEmailFromWebsite`: the `mailto:` capture if that
pattern matches anywhere, else the first bare token, else empty. -/
def extractEmail (html : String) : String :=
  match findMailto html.data with
  | some e => String.mk e
  | none =>
    match findPlain false html.data with
    | some e => String.mk e
    | none => ""

/-- Observable outcome of the raw website fetch: `fail` is any thrown
network error, abort or timeout; `resp ok body` is an HTTP response with
`resp.ok` flag and body text. -/
inductive FetchOutcome : Type where
  | fail : FetchOutcome
  | resp : Bool → String → FetchOutcome

/-- Outward effects of a run, in order. -/
inductive Effect : Type where
  | searchCall : String → Effect
  | sleepMs : Nat → Effect
  | detailCall : String → Effect
  | webFetch : String → Effect
deriving DecidableEq

/-- `findEmailFromWebsite(url)`: guard on a falsy or non-`http`-prefixed
URL before any fetch; then one GET whose failure, abort or non-ok status
yields the empty string (the surrounding try/catch swallows everything);
on ok, scan the body.  Also returns the fetch effects performed. -/
def findEmailFromWebsite (url : String) (net : String → FetchOutcome) :
    String × List Effect :=
  if !strTruthy url || !listPrefixOf "http".data url.data then ("", [])
  else
    match net url with
    | .fail => ("", [.webFetch url])
    | .resp ok body =>
      if !ok then ("", [.webFetch url]) else (extractEmail body, [.webFetch url])

/-- A place summary from the text-search provider
(`id`, `displayName.text`, `formattedAddress`; each may be absent). -/
structure Place where
  id : Option String
  displayNameText : Option String
  formattedAddress : Option String
deriving DecidableEq

/-- A detail-lookup payload (`websiteUri`, possibly absent). -/
structure Detail where
  websiteUri : Option String
deriving DecidableEq

/-- One result row; all five fields are strings by construction. -/
structure Lead where
  name : String
  address : String
  website : String
  email : String
  google_maps_url : String
deriving DecidableEq

/-- The Google-Maps link built from a truthy place id. -/
def mapsUrl (placeId : String) : String :=
  "https://www.google.com/maps/place/?q=place_id:" ++ placeId

/-- Body of the per-place loop.  Enrichment runs only when
`includeWebsiteEmail && placeId` is truthy: sleep, detail lookup (whose
thrown error is caught here, leaving website/email empty), then if the
website is truthy another sleep and the email extraction.  The place is
always pushed onto the results. -/
def processPlace (incl : Bool) (p : Place)
    (details : String → Except String Detail) (net : String → FetchOutcome) :
    Lead × List Effect :=
  let placeId := p.id.getD ""
  let name := p.displayNameText.getD ""
  let address := p.formattedAddress.getD ""
  let gmaps := if strTruthy placeId then mapsUrl placeId else ""
  if incl && strTruthy placeId then
    match details placeId with
    | .error _ => (⟨name, address, "", "", gmaps⟩, [.sleepMs 120, .detailCall placeId])
    | .ok d =>
      let website := d.websiteUri.getD ""
      if strTruthy website then
        let fe := findEmailFromWebsite website net
        (⟨name, address, website, fe.1, gmaps⟩,
          [.sleepMs 120, .detailCall placeId, .sleepMs 120] ++ fe.2)
      else (⟨name, address, website, "", gmaps⟩, [.sleepMs 120, .detailCall placeId])
  else (⟨name, address, "", "", gmaps⟩, [])

/-- The `for (const p of places)` loop: sequential, in provider order. -/
def runPlaces (incl : Bool) (places : List Place)
    (details : String → Except String Detail) (net : String → FetchOutcome) :
    List Lead × List Effect :=
  match places with
  | [] => ([], [])
  | p :: ps =>
    let r := processPlace incl p details net
    let rest := runPlaces incl ps details net
    (r.1 :: rest.1, r.2 ++ rest.2)

/-- Parse outcome of the request body string.  `absent` covers a missing
or empty `event.body` (JS-falsy, replaced by the literal text of an
empty object before parsing); `invalid` is text `JSON.parse` rejects;
`parsed v` is text parsing to `v`. -/
inductive RawBody : Type where
  | absent : RawBody
  | invalid : RawBody
  | parsed : JVal → RawBody

/-- The incoming event (fields the function reads; `path` is only logged). -/
structure Event where
  httpMethod : String
  path : String
  rawBody : RawBody

/-- The `JSON.parse(event.body || ...)` step: an absent body parses to
the empty object, invalid text to a parse failure. -/
def parseBody : RawBody → Option JVal
  | .absent => some (.jobj [])
  | .invalid => none
  | .parsed v => some v

/-- V8's message for destructuring `null`. -/
def destructureNullMsg : String :=
  "Cannot destructure property 'businessType' of 'body' as it is null."

/-- Outcome of `const \x7b businessType, city, includeWebsiteEmail \x7d = body`. -/
inductive DestructureResult : Type where
  | thrown : String → DestructureResult
  | fields : Option JVal → Option JVal → Option JVal → DestructureResult

/-- Destructuring the parsed body: `null` throws a TypeError; any other
non-object is coerced to an object with none of the three properties;
an object yields its properties (absent ones become `undefined`). -/
def destructure3 : JVal → DestructureResult
  | .jnull => .thrown destructureNullMsg
  | .jobj fs =>
    .fields (jgetField fs "businessType") (jgetField fs "city")
      (jgetField fs "includeWebsiteEmail")
  | _ => .fields none none none

/-- HTTP response: status and the object passed to `JSON.stringify`
(`none` is the empty-string body of the preflight branch).  The constant
CORS headers are not modelled. -/
structure Response where
  statusCode : Nat
  body : Option JVal

/-- Truthiness of `process.env.GOOGLE_MAPS_API_KEY`. -/
def keyTruthy : Option String → Bool
  | none => false
  | some s => strTruthy s

/-- Body of the 405 branch. -/
def methodNotAllowedBody : JVal :=
  .jobj [("error", .jstr "Method not allowed. Use POST.")]

/-- Body of the missing-credential branch. -/
def missingKeyBody : JVal :=
  .jobj [("error", .jstr "Missing GOOGLE_MAPS_API_KEY"),
    ("hint", .jstr "Add GOOGLE_MAPS_API_KEY in Netlify → Site configuration → Environment variables, then redeploy.")]

/-- Body of the JSON-parse-failure branch. -/
def invalidJsonBody : JVal :=
  .jobj [("error", .jstr "Invalid JSON body"),
    ("hint", .jstr "Ensure request body is valid JSON with businessType and city.")]

/-- Body of the missing-fields branch, with its example payload. -/
def missingFieldsBody : JVal :=
  .jobj [("error", .jstr "businessType and city required"),
    ("example", .jobj [("businessType", .jstr "kitchen designer"),
      ("city", .jstr "Christchurch"), ("includeWebsiteEmail", .jbool false)])]

/-- Body of the top-level catch: `err?.message || "Server error"`. -/
def serverErrorBody (msg : String) : JVal :=
  .jobj [("error", .jstr (if strTruthy msg then msg else "Server error")),
    ("hint", .jstr "Check Netlify Functions logs for details.")]

/-- JSON rendering of one result row. -/
def leadJson (l : Lead) : JVal :=
  .jobj [("name", .jstr l.name), ("address", .jstr l.address),
    ("website", .jstr l.website), ("email", .jstr l.email),
    ("google_maps_url", .jstr l.google_maps_url)]

/-- Body of the 200 branch: `\x7b query, count: results.length, results \x7d`. -/
def successBody (query : String) (leads : List Lead) : JVal :=
  .jobj [("query", .jstr query), ("count", .jnum (Int.ofNat leads.length)),
    ("results", .jarr (leads.map leadJson))]

/-- The search query template with its trims. -/
def mkQuery (bt city : Option JVal) : String :=
  jsTrim (jsToStringOpt bt) ++ " in " ++ jsTrim (jsToStringOpt city) ++ ", New Zealand"

/-- The handler.  Branches in source order: CORS preflight, method
check, credential check, body parse, destructure (null throws into the
top-level catch), field validation, search call (its thrown message goes
to the top-level catch), per-place loop, success response. -/
def handler (apiKey : Option String) (ev : Event)
    (search : String → Except String (List Place))
    (details : String → Except String Detail)
    (net : String → FetchOutcome) : Response × List Effect :=
  if ev.httpMethod = "OPTIONS" then (⟨204, none⟩, [])
  else if !(ev.httpMethod = "POST") then (⟨405, some methodNotAllowedBody⟩, [])
  else if !keyTruthy apiKey then (⟨500, some missingKeyBody⟩, [])
  else
    match parseBody ev.rawBody with
    | none => (⟨400, some invalidJsonBody⟩, [])
    | some bodyVal =>
      match destructure3 bodyVal with
      | .thrown msg => (⟨500, some (serverErrorBody msg)⟩, [])
      | .fields bt city incl =>
        if !truthy bt || !truthy city then (⟨400, some missingFieldsBody⟩, [])
        else
          let query := mkQuery bt city
          match search query with
          | .error msg => (⟨500, some (serverErrorBody msg)⟩, [.searchCall query])
          | .ok places =>
            let r := runPlaces (truthy incl) places details net
            (⟨200, some (successBody query r.1)⟩, .searchCall query :: r.2)


/-- The lead built for a place when enrichment is skipped or fails
before reaching a website (the loop body with empty website/email). -/
def plainLead (p : Place) : Lead :=
  ⟨p.displayNameText.getD "", p.formattedAddress.getD "", "", "",
    if strTruthy (p.id.getD "") then mapsUrl (p.id.getD "") else ""⟩

/-! ### Helper lemmas -/

/-- The results of the loop are the per-place leads, in provider order. -/
theorem runPlaces_fst (incl : Bool) (places : List Place)
    (details : String → Except String Detail) (net : String → FetchOutcome) :
    (runPlaces incl places details net).1 =
      places.map (fun p => (processPlace incl p details net).1) := by
  induction places with
  | nil => rfl
  | cons p ps ih => simp [runPlaces, ih]

/-- An `http`-prefixed character list is nonempty. -/
theorem listPrefixOf_http_ne_nil (l : List Char)
    (h : listPrefixOf "http".data l = true) : l.isEmpty = false := by
  cases l with
  | nil => exact absurd h (by decide)
  | cons c cs => rfl

/-- C6-style and success-path runs share this reduction of the handler
through the method, credential, parse, destructure and validation
branches down to the search call. -/
theorem handler_200 (apiKey : Option String) (ev : Event)
    (search : String → Except String (List Place))
    (details : String → Except String Detail) (net : String → FetchOutcome)
    (v : JVal) (bt city incl : Option JVal) (places : List Place)
    (hm : ev.httpMethod = "POST") (hk : keyTruthy apiKey = true)
    (hb : ev.rawBody = .parsed v)
    (hd : destructure3 v = .fields bt city incl)
    (hbt : truthy bt = true) (hc : truthy city = true)
    (hs : search (mkQuery bt city) = .ok places) :
    handler apiKey ev search details net =
      (⟨200, some (successBody (mkQuery bt city)
          (runPlaces (truthy incl) places details net).1)⟩,
        .searchCall (mkQuery bt city) ::
          (runPlaces (truthy incl) places details net).2) := by
  unfold handler
  rw [hm, hb]
  simp [parseBody, hk, hd, hbt, hc, hs]

/-! ### Claims -/

/-- C6: for every POST request, when the configured API credential is
absent from the environment the handler returns status 500 with an
`error` and a `hint` field, regardless of body validity, and the effect
trace is empty — no search, detail or website-fetch call is attempted. -/
theorem c6_missing_key (apiKey : Option String) (ev : Event)
    (search : String → Except String (List Place))
    (details : String → Except String Detail) (net : String → FetchOutcome)
    (hm : ev.httpMethod = "POST") (hk : apiKey = none) :
    handler apiKey ev search details net = (⟨500, some missingKeyBody⟩, []) ∧
    (∃ e, jprop missingKeyBody "error" = some (.jstr e)) ∧
    (∃ h, jprop missingKeyBody "hint" = some (.jstr h)) := by
  subst hk
  refine ⟨?_, ⟨"Missing GOOGLE_MAPS_API_KEY", rfl⟩, ⟨_, rfl⟩⟩
  unfold handler
  rw [hm]
  simp [keyTruthy]

theorem c6_missing_key_witness :
    handler none ⟨"POST", "/fn", .invalid⟩ (fun _ => .ok []) (fun _ => .ok ⟨none⟩)
        (fun _ => .fail) = (⟨500, some missingKeyBody⟩, []) ∧
    (∃ e, jprop missingKeyBody "error" = some (.jstr e)) ∧
    (∃ h, jprop missingKeyBody "hint" = some (.jstr h)) :=
  c6_missing_key none ⟨"POST", "/fn", .invalid⟩ (fun _ => .ok []) (fun _ => .ok ⟨none⟩)
    (fun _ => .fail) rfl rfl

/-- C7: the email extractor is total at its boundary — it is a total
function in this model (the source wraps the fetch and scan in
try/catch), and on any network failure, abort/timeout, or response with
a non-ok status the extracted email is the empty string. -/
theorem c7_extractor_never_throws (url : String) (net : String → FetchOutcome)
    (h : net url = .fail ∨ ∃ b, net url = .resp false b) :
    (findEmailFromWebsite url net).1 = "" := by
  unfold findEmailFromWebsite
  rcases h with h | ⟨b, h⟩ <;> rw [h] <;> split <;> rfl

theorem c7_extractor_never_throws_witness :
    (findEmailFromWebsite "http://acme.example" (fun _ => .fail)).1 = "" ∧
    (findEmailFromWebsite "http://acme.example"
        (fun _ => .resp false "mailto:a@b.co")).1 = "" :=
  ⟨c7_extractor_never_throws "http://acme.example" (fun _ => .fail) (Or.inl rfl),
   c7_extractor_never_throws "http://acme.example" (fun _ => .resp false "mailto:a@b.co")
     (Or.inr ⟨"mailto:a@b.co", rfl⟩)⟩

/-- C8: the handler is deterministic and depends on nothing in the
event beyond the HTTP method and the request body (the `path` is only
logged): two runs with the same method, body, credential and upstream
oracles produce identical responses and effect traces. -/
theorem c8_deterministic (apiKey : Option String) (ev1 ev2 : Event)
    (search : String → Except String (List Place))
    (details : String → Except String Detail) (net : String → FetchOutcome)
    (hm : ev1.httpMethod = ev2.httpMethod) (hb : ev1.rawBody = ev2.rawBody) :
    handler apiKey ev1 search details net = handler apiKey ev2 search details net := by
  cases ev1
  cases ev2
  cases hm
  cases hb
  rfl

theorem c8_deterministic_witness :
    handler (some "k") ⟨"POST", "/a", .absent⟩ (fun _ => .ok []) (fun _ => .ok ⟨none⟩)
        (fun _ => .fail) =
      handler (some "k") ⟨"POST", "/b", .absent⟩ (fun _ => .ok []) (fun _ => .ok ⟨none⟩)
        (fun _ => .fail) :=
  c8_deterministic (some "k") ⟨"POST", "/a", .absent⟩ ⟨"POST", "/b", .absent⟩
    (fun _ => .ok []) (fun _ => .ok ⟨none⟩) (fun _ => .fail) rfl rfl

/-- C10: a place whose `id` is absent or empty is never enriched — even
when `includeWebsiteEmail` is truthy there is no sleep, no detail call
and no website fetch for it — and its lead carries empty website, email
and `google_maps_url`, while name and address are still filled in. -/
theorem c10_falsy_id (incl : Bool) (p : Place)
    (details : String → Except String Detail) (net : String → FetchOutcome)
    (hid : p.id = none ∨ p.id = some "") :
    processPlace incl p details net =
      (⟨p.displayNameText.getD "", p.formattedAddress.getD "", "", "", ""⟩, []) := by
  unfold processPlace
  rcases hid with h | h <;> rw [h] <;> simp [strTruthy]

theorem c10_falsy_id_witness :
    processPlace true ⟨none, some "Acme", some "1 Main St"⟩
        (fun _ => .ok ⟨some "http://acme.example"⟩) (fun _ => .resp true "a@b.co") =
      (⟨"Acme", "1 Main St", "", "", ""⟩, []) ∧
    processPlace true ⟨some "", some "Acme", some "1 Main St"⟩
        (fun _ => .ok ⟨some "http://acme.example"⟩) (fun _ => .resp true "a@b.co") =
      (⟨"Acme", "1 Main St", "", "", ""⟩, []) :=
  ⟨c10_falsy_id true ⟨none, some "Acme", some "1 Main St"⟩
      (fun _ => .ok ⟨some "http://acme.example"⟩) (fun _ => .resp true "a@b.co") (Or.inl rfl),
   c10_falsy_id true ⟨some "", some "Acme", some "1 Main St"⟩
      (fun _ => .ok ⟨some "http://acme.example"⟩) (fun _ => .resp true "a@b.co") (Or.inr rfl)⟩

/-- C2 counterexample: a `businessType` that is a whitespace-only string
(empty after trimming) is JS-truthy, so the validation `!businessType ||
!city` does not fire: with a present credential and a provider the
handler reaches the search and answers 200, not the claimed 400. -/
theorem c2_counterexample :
    (handler (some "key")
        ⟨"POST", "/fn",
          .parsed (.jobj [("businessType", .jstr " "), ("city", .jstr "Christchurch")])⟩
        (fun _ => .ok []) (fun _ => .ok ⟨none⟩) (fun _ => .fail)).1.statusCode = 200 ∧
    (handler (some "key")
        ⟨"POST", "/fn",
          .parsed (.jobj [("businessType", .jstr " "), ("city", .jstr "Christchurch")])⟩
        (fun _ => .ok []) (fun _ => .ok ⟨none⟩) (fun _ => .fail)).1.statusCode ≠ 400 := by
  constructor
  · rfl
  · decide

/-- C2 amended: for every POST request whose body is valid JSON, if the
destructured `businessType` or `city` is missing or JS-falsy (absent,
`null`, `false`, `0`, or the empty string — but not a whitespace-only
string, which passes), the handler returns 400 with an `error` field and
an `example` field showing a valid payload shape. -/
theorem c2_missing_fields (apiKey : Option String) (ev : Event)
    (search : String → Except String (List Place))
    (details : String → Except String Detail) (net : String → FetchOutcome)
    (v : JVal) (bt city incl : Option JVal)
    (hm : ev.httpMethod = "POST") (hk : keyTruthy apiKey = true)
    (hb : ev.rawBody = .parsed v)
    (hd : destructure3 v = .fields bt city incl)
    (hmiss : truthy bt = false ∨ truthy city = false) :
    (handler apiKey ev search details net).1 = ⟨400, some missingFieldsBody⟩ ∧
    (∃ e, jprop missingFieldsBody "error" = some (.jstr e)) ∧
    (∃ ex, jprop missingFieldsBody "example" = some ex ∧
      jprop ex "businessType" = some (.jstr "kitchen designer") ∧
      jprop ex "city" = some (.jstr "Christchurch") ∧
      jprop ex "includeWebsiteEmail" = some (.jbool false)) := by
  refine ⟨?_, ⟨"businessType and city required", rfl⟩, ⟨_, rfl, rfl, rfl, rfl⟩⟩
  unfold handler
  rw [hm, hb]
  rcases hmiss with h | h <;> simp [parseBody, hk, hd, h]

theorem c2_missing_fields_witness :
    (handler (some "key")
        ⟨"POST", "/fn", .parsed (.jobj [("city", .jstr "Christchurch")])⟩
        (fun _ => .ok []) (fun _ => .ok ⟨none⟩) (fun _ => .fail)).1 =
      ⟨400, some missingFieldsBody⟩ ∧
    (∃ e, jprop missingFieldsBody "error" = some (.jstr e)) ∧
    (∃ ex, jprop missingFieldsBody "example" = some ex ∧
      jprop ex "businessType" = some (.jstr "kitchen designer") ∧
      jprop ex "city" = some (.jstr "Christchurch") ∧
      jprop ex "includeWebsiteEmail" = some (.jbool false)) :=
  c2_missing_fields (some "key")
    ⟨"POST", "/fn", .parsed (.jobj [("city", .jstr "Christchurch")])⟩
    (fun _ => .ok []) (fun _ => .ok ⟨none⟩) (fun _ => .fail)
    (.jobj [("city", .jstr "Christchurch")]) none (some (.jstr "Christchurch")) none
    rfl rfl rfl rfl (Or.inl rfl)

/-- C9 counterexample: a body that is valid JSON but not an object need
not reach the 500 path — the number `5` destructures without throwing
(JS coerces primitives to objects), its fields come out `undefined`, and
the handler answers 400, not 500. -/
theorem c9_counterexample :
    (handler (some "key") ⟨"POST", "/fn", .parsed (.jnum 5)⟩
        (fun _ => .ok []) (fun _ => .ok ⟨none⟩) (fun _ => .fail)).1.statusCode = 400 ∧
    (handler (some "key") ⟨"POST", "/fn", .parsed (.jnum 5)⟩
        (fun _ => .ok []) (fun _ => .ok ⟨none⟩) (fun _ => .fail)).1.statusCode ≠ 500 := by
  constructor
  · rfl
  · decide

/-- C9 amended: among valid-JSON bodies only the literal `null` makes
the destructuring throw, sending the handler to the 500 unhandled-error
path; any other non-object body (number, string, boolean, array)
destructures to `undefined` fields and yields the 400 missing-fields
response; an absent body is treated as the empty object and also yields
the 400 missing-fields response. -/
theorem c9_nonobject_bodies (apiKey : Option String) (ev : Event)
    (search : String → Except String (List Place))
    (details : String → Except String Detail) (net : String → FetchOutcome)
    (hm : ev.httpMethod = "POST") (hk : keyTruthy apiKey = true) :
    (ev.rawBody = .parsed .jnull →
      (handler apiKey ev search details net).1 =
        ⟨500, some (serverErrorBody destructureNullMsg)⟩) ∧
    (ev.rawBody = .absent →
      (handler apiKey ev search details net).1 = ⟨400, some missingFieldsBody⟩) ∧
    (∀ v : JVal, ev.rawBody = .parsed v → v ≠ .jnull → (∀ fs, v ≠ .jobj fs) →
      (handler apiKey ev search details net).1 = ⟨400, some missingFieldsBody⟩) := by
  refine ⟨fun hb => ?_, fun hb => ?_, fun v hb hnull hobj => ?_⟩
  · unfold handler
    rw [hm, hb]
    simp [parseBody, hk, destructure3]
  · unfold handler
    rw [hm, hb]
    simp [parseBody, hk, destructure3, jgetField, truthy]
  · unfold handler
    rw [hm, hb]
    cases v with
    | jnull => exact absurd rfl hnull
    | jobj fs => exact absurd rfl (hobj fs)
    | jbool b => simp [parseBody, hk, destructure3, truthy]
    | jnum n => simp [parseBody, hk, destructure3, truthy]
    | jstr s => simp [parseBody, hk, destructure3, truthy]
    | jarr xs => simp [parseBody, hk, destructure3, truthy]

theorem c9_nonobject_bodies_witness :
    (handler (some "key") ⟨"POST", "/fn", .parsed .jnull⟩
        (fun _ => .ok []) (fun _ => .ok ⟨none⟩) (fun _ => .fail)).1 =
      ⟨500, some (serverErrorBody destructureNullMsg)⟩ ∧
    (handler (some "key") ⟨"POST", "/fn", .absent⟩
        (fun _ => .ok []) (fun _ => .ok ⟨none⟩) (fun _ => .fail)).1 =
      ⟨400, some missingFieldsBody⟩ ∧
    (handler (some "key") ⟨"POST", "/fn", .parsed (.jstr "hello")⟩
        (fun _ => .ok []) (fun _ => .ok ⟨none⟩) (fun _ => .fail)).1 =
      ⟨400, some missingFieldsBody⟩ :=
  ⟨(c9_nonobject_bodies (some "key") ⟨"POST", "/fn", .parsed .jnull⟩
      (fun _ => .ok []) (fun _ => .ok ⟨none⟩) (fun _ => .fail) rfl rfl).1 rfl,
   (c9_nonobject_bodies (some "key") ⟨"POST", "/fn", .absent⟩
      (fun _ => .ok []) (fun _ => .ok ⟨none⟩) (fun _ => .fail) rfl rfl).2.1 rfl,
   (c9_nonobject_bodies (some "key") ⟨"POST", "/fn", .parsed (.jstr "hello")⟩
      (fun _ => .ok []) (fun _ => .ok ⟨none⟩) (fun _ => .fail) rfl rfl).2.2
     (.jstr "hello") rfl (by simp) (fun fs => by simp)⟩

/-- A string that is not truthy is the empty string. -/
theorem strTruthy_false_eq (s : String) (h : strTruthy s = false) : s = "" := by
  cases s with
  | mk data =>
    cases data with
    | nil => rfl
    | cons c cs => simp [strTruthy] at h

/-- Skipped enrichment produces the plain lead and no effects. -/
theorem processPlace_false (p : Place) (details : String → Except String Detail)
    (net : String → FetchOutcome) :
    processPlace false p details net = (plainLead p, []) := by
  unfold processPlace plainLead
  simp

/-- The whole loop without enrichment: plain leads, no effects. -/
theorem runPlaces_false (places : List Place)
    (details : String → Except String Detail) (net : String → FetchOutcome) :
    runPlaces false places details net = (places.map plainLead, []) := by
  induction places with
  | nil => rfl
  | cons p ps ih => simp [runPlaces, processPlace_false, ih]

/-- The `count` field of a success body is the length of the results. -/
theorem successBody_count (q : String) (leads : List Lead) :
    jprop (successBody q leads) "count" = some (.jnum (Int.ofNat leads.length)) := rfl

/-- The `results` field of a success body. -/
theorem successBody_results (q : String) (leads : List Lead) :
    jprop (successBody q leads) "results" = some (.jarr (leads.map leadJson)) := rfl

/-- C4: for a valid POST with `includeWebsiteEmail` falsy and a provider
returning `places`, the handler answers 200 whose body carries the query,
a `count` equal to the number of places, and one result per place in
provider order, each with empty `website` and `email`; the only outward
effect is the single search call. -/
theorem c4_no_enrichment (apiKey : Option String) (ev : Event)
    (search : String → Except String (List Place))
    (details : String → Except String Detail) (net : String → FetchOutcome)
    (v : JVal) (bt city incl : Option JVal) (places : List Place)
    (hm : ev.httpMethod = "POST") (hk : keyTruthy apiKey = true)
    (hb : ev.rawBody = .parsed v)
    (hd : destructure3 v = .fields bt city incl)
    (hbt : truthy bt = true) (hc : truthy city = true)
    (hincl : truthy incl = false)
    (hs : search (mkQuery bt city) = .ok places) :
    handler apiKey ev search details net =
      (⟨200, some (successBody (mkQuery bt city) (places.map plainLead))⟩,
        [.searchCall (mkQuery bt city)]) ∧
    (places.map plainLead).length = places.length ∧
    jprop (successBody (mkQuery bt city) (places.map plainLead)) "count" =
      some (.jnum (Int.ofNat places.length)) ∧
    (∀ l ∈ places.map plainLead, l.website = "" ∧ l.email = "") := by
  have h := handler_200 apiKey ev search details net v bt city incl places
    hm hk hb hd hbt hc hs
  rw [hincl, runPlaces_false] at h
  refine ⟨h, List.length_map _ _, ?_, ?_⟩
  · rw [successBody_count, List.length_map]
  · intro l hl
    rcases List.mem_map.mp hl with ⟨p, _, hp⟩
    rw [← hp]
    exact ⟨rfl, rfl⟩

theorem c4_no_enrichment_witness :
    handler (some "key")
        ⟨"POST", "/fn", .parsed (.jobj [("businessType", .jstr "kitchen designer"),
          ("city", .jstr "Christchurch"), ("includeWebsiteEmail", .jbool false)])⟩
        (fun _ => .ok [⟨some "p1", some "Acme Kitchens", some "1 Main St"⟩,
          ⟨some "p2", some "Beta Kitchens", some "2 Side St"⟩])
        (fun _ => .ok ⟨some "http://acme.example"⟩) (fun _ => .resp true "a@b.co") =
      (⟨200, some (successBody "kitchen designer in Christchurch, New Zealand"
          ([⟨some "p1", some "Acme Kitchens", some "1 Main St"⟩,
            ⟨some "p2", some "Beta Kitchens", some "2 Side St"⟩].map plainLead))⟩,
        [.searchCall "kitchen designer in Christchurch, New Zealand"]) ∧
    ([⟨some "p1", some "Acme Kitchens", some "1 Main St"⟩,
      ⟨some "p2", some "Beta Kitchens", some "2 Side St"⟩].map plainLead).length = 2 ∧
    jprop (successBody "kitchen designer in Christchurch, New Zealand"
        ([⟨some "p1", some "Acme Kitchens", some "1 Main St"⟩,
          ⟨some "p2", some "Beta Kitchens", some "2 Side St"⟩].map plainLead)) "count" =
      some (.jnum 2) ∧
    (∀ l ∈ [(⟨some "p1", some "Acme Kitchens", some "1 Main St"⟩ : Place),
        ⟨some "p2", some "Beta Kitchens", some "2 Side St"⟩].map plainLead,
      l.website = "" ∧ l.email = "") := by
  have h := c4_no_enrichment (some "key")
    ⟨"POST", "/fn", .parsed (.jobj [("businessType", .jstr "kitchen designer"),
      ("city", .jstr "Christchurch"), ("includeWebsiteEmail", .jbool false)])⟩
    (fun _ => .ok [⟨some "p1", some "Acme Kitchens", some "1 Main St"⟩,
      ⟨some "p2", some "Beta Kitchens", some "2 Side St"⟩])
    (fun _ => .ok ⟨some "http://acme.example"⟩) (fun _ => .resp true "a@b.co")
    (.jobj [("businessType", .jstr "kitchen designer"),
      ("city", .jstr "Christchurch"), ("includeWebsiteEmail", .jbool false)])
    (some (.jstr "kitchen designer")) (some (.jstr "Christchurch"))
    (some (.jbool false)) [⟨some "p1", some "Acme Kitchens", some "1 Main St"⟩,
      ⟨some "p2", some "Beta Kitchens", some "2 Side St"⟩]
    rfl rfl rfl rfl rfl rfl rfl rfl
  exact h

/-- C5: every 200 response is a success body: its `count` is exactly the
length of the `results` array, and every result row renders all five
fields (`name`, `address`, `website`, `email`, `google_maps_url`) as
JSON strings — never null or absent. -/
theorem c5_success_shape (apiKey : Option String) (ev : Event)
    (search : String → Except String (List Place))
    (details : String → Except String Detail) (net : String → FetchOutcome)
    (h200 : (handler apiKey ev search details net).1.statusCode = 200) :
    ∃ q leads, (handler apiKey ev search details net).1.body =
        some (successBody q leads) ∧
      jprop (successBody q leads) "count" = some (.jnum (Int.ofNat leads.length)) ∧
      jprop (successBody q leads) "results" = some (.jarr (leads.map leadJson)) ∧
      ∀ l ∈ leads, leadJson l = .jobj [("name", .jstr l.name),
        ("address", .jstr l.address), ("website", .jstr l.website),
        ("email", .jstr l.email), ("google_maps_url", .jstr l.google_maps_url)] := by
  revert h200
  unfold handler
  split
  · intro h; simp at h
  split
  · intro h; simp at h
  split
  · intro h; simp at h
  split
  · intro h; simp at h
  split
  · intro h; simp at h
  split
  · intro h; simp at h
  dsimp only
  split
  · intro h; simp at h
  · intro _
    exact ⟨_, _, rfl, successBody_count _ _, successBody_results _ _, fun l _ => rfl⟩

theorem c5_success_shape_witness :
    ∃ q leads, (handler (some "key")
        ⟨"POST", "/fn", .parsed (.jobj [("businessType", .jstr "plumber"),
          ("city", .jstr "Nelson")])⟩
        (fun _ => .ok [⟨some "p1", some "Acme", some "1 Main St"⟩])
        (fun _ => .ok ⟨none⟩) (fun _ => .fail)).1.body =
        some (successBody q leads) ∧
      jprop (successBody q leads) "count" = some (.jnum (Int.ofNat leads.length)) ∧
      jprop (successBody q leads) "results" = some (.jarr (leads.map leadJson)) ∧
      ∀ l ∈ leads, leadJson l = .jobj [("name", .jstr l.name),
        ("address", .jstr l.address), ("website", .jstr l.website),
        ("email", .jstr l.email), ("google_maps_url", .jstr l.google_maps_url)] :=
  c5_success_shape (some "key")
    ⟨"POST", "/fn", .parsed (.jobj [("businessType", .jstr "plumber"),
      ("city", .jstr "Nelson")])⟩
    (fun _ => .ok [⟨some "p1", some "Acme", some "1 Main St"⟩])
    (fun _ => .ok ⟨none⟩) (fun _ => .fail) rfl

/-- C1: in a valid enrichment run, if the detail lookup throws for one
of the returned places, the handler still answers 200; the results are
one lead per place in provider order; the failing place's lead keeps its
name and address but has empty `website` and `email`; and every place
whose detail lookup succeeds keeps its resolved website and the email
extracted from it. -/
theorem c1_partial_failure (apiKey : Option String) (ev : Event)
    (search : String → Except String (List Place))
    (details : String → Except String Detail) (net : String → FetchOutcome)
    (v : JVal) (bt city incl : Option JVal) (places : List Place)
    (msg : String) (i : Nat) (pi : Place)
    (hm : ev.httpMethod = "POST") (hk : keyTruthy apiKey = true)
    (hb : ev.rawBody = .parsed v)
    (hd : destructure3 v = .fields bt city incl)
    (hbt : truthy bt = true) (hc : truthy city = true)
    (hincl : truthy incl = true)
    (hs : search (mkQuery bt city) = .ok places)
    (hpi : places.get? i = some pi)
    (herr : details (pi.id.getD "") = .error msg) :
    (handler apiKey ev search details net).1.statusCode = 200 ∧
    (handler apiKey ev search details net).1.body =
      some (successBody (mkQuery bt city) (runPlaces true places details net).1) ∧
    (runPlaces true places details net).1 =
      places.map (fun p => (processPlace true p details net).1) ∧
    (runPlaces true places details net).1.get? i = some (plainLead pi) ∧
    (∀ j pj d, places.get? j = some pj → strTruthy (pj.id.getD "") = true →
      details (pj.id.getD "") = .ok d →
      (runPlaces true places details net).1.get? j =
        some ⟨pj.displayNameText.getD "", pj.formattedAddress.getD "",
          d.websiteUri.getD "",
          (findEmailFromWebsite (d.websiteUri.getD "") net).1,
          mapsUrl (pj.id.getD "")⟩) := by
  have h := handler_200 apiKey ev search details net v bt city incl places
    hm hk hb hd hbt hc hs
  rw [hincl] at h
  have hmap := runPlaces_fst true places details net
  refine ⟨by rw [h], by rw [h], hmap, ?_, ?_⟩
  · rw [hmap, List.get?_map, hpi, Option.map_some']
    by_cases hpid : strTruthy (pi.id.getD "") = true
    · unfold processPlace plainLead
      simp [hpid, herr]
    · unfold processPlace plainLead
      simp [hpid]
  · intro j pj d hj hjid hok
    rw [hmap, List.get?_map, hj, Option.map_some']
    by_cases hw : strTruthy (d.websiteUri.getD "") = true
    · unfold processPlace
      simp [hjid, hok, hw]
    · have hweq : d.websiteUri.getD "" = "" := strTruthy_false_eq _ (by simpa using hw)
      have h0 : strTruthy "" = false := rfl
      have h1 : findEmailFromWebsite "" net = ("", []) := rfl
      unfold processPlace
      simp [hjid, hok, hw, hweq, h0, h1]

theorem c1_partial_failure_witness :
    (handler (some "key")
        ⟨"POST", "/fn", .parsed (.jobj [("businessType", .jstr "kitchen designer"),
          ("city", .jstr "Christchurch"), ("includeWebsiteEmail", .jbool true)])⟩
        (fun _ => .ok [⟨some "p1", some "Acme Kitchens", some "1 Main St"⟩,
          ⟨some "p2", some "Beta Kitchens", some "2 Side St"⟩])
        (fun pid => if pid = "p1" then .error "Place Details failed (403): denied"
          else .ok ⟨some "http://beta.example"⟩)
        (fun _ => .resp true "write to mailto:info@beta.example today")).1.statusCode = 200 ∧
    (handler (some "key")
        ⟨"POST", "/fn", .parsed (.jobj [("businessType", .jstr "kitchen designer"),
          ("city", .jstr "Christchurch"), ("includeWebsiteEmail", .jbool true)])⟩
        (fun _ => .ok [⟨some "p1", some "Acme Kitchens", some "1 Main St"⟩,
          ⟨some "p2", some "Beta Kitchens", some "2 Side St"⟩])
        (fun pid => if pid = "p1" then .error "Place Details failed (403): denied"
          else .ok ⟨some "http://beta.example"⟩)
        (fun _ => .resp true "write to mailto:info@beta.example today")).1.body =
      some (successBody "kitchen designer in Christchurch, New Zealand"
        (runPlaces true [⟨some "p1", some "Acme Kitchens", some "1 Main St"⟩,
          ⟨some "p2", some "Beta Kitchens", some "2 Side St"⟩]
          (fun pid => if pid = "p1" then .error "Place Details failed (403): denied"
            else .ok ⟨some "http://beta.example"⟩)
          (fun _ => .resp true "write to mailto:info@beta.example today")).1) ∧
    (runPlaces true [⟨some "p1", some "Acme Kitchens", some "1 Main St"⟩,
        ⟨some "p2", some "Beta Kitchens", some "2 Side St"⟩]
        (fun pid => if pid = "p1" then .error "Place Details failed (403): denied"
          else .ok ⟨some "http://beta.example"⟩)
        (fun _ => .resp true "write to mailto:info@beta.example today")).1.get? 0 =
      some (plainLead ⟨some "p1", some "Acme Kitchens", some "1 Main St"⟩) ∧
    (runPlaces true [⟨some "p1", some "Acme Kitchens", some "1 Main St"⟩,
        ⟨some "p2", some "Beta Kitchens", some "2 Side St"⟩]
        (fun pid => if pid = "p1" then .error "Place Details failed (403): denied"
          else .ok ⟨some "http://beta.example"⟩)
        (fun _ => .resp true "write to mailto:info@beta.example today")).1.get? 1 =
      some ⟨"Beta Kitchens", "2 Side St", "http://beta.example",
        "info@beta.example", mapsUrl "p2"⟩ := by
  have h := c1_partial_failure (some "key")
    ⟨"POST", "/fn", .parsed (.jobj [("businessType", .jstr "kitchen designer"),
      ("city", .jstr "Christchurch"), ("includeWebsiteEmail", .jbool true)])⟩
    (fun _ => .ok [⟨some "p1", some "Acme Kitchens", some "1 Main St"⟩,
      ⟨some "p2", some "Beta Kitchens", some "2 Side St"⟩])
    (fun pid => if pid = "p1" then .error "Place Details failed (403): denied"
      else .ok ⟨some "http://beta.example"⟩)
    (fun _ => .resp true "write to mailto:info@beta.example today")
    (.jobj [("businessType", .jstr "kitchen designer"),
      ("city", .jstr "Christchurch"), ("includeWebsiteEmail", .jbool true)])
    (some (.jstr "kitchen designer")) (some (.jstr "Christchurch"))
    (some (.jbool true))
    [⟨some "p1", some "Acme Kitchens", some "1 Main St"⟩,
      ⟨some "p2", some "Beta Kitchens", some "2 Side St"⟩]
    "Place Details failed (403): denied" 0
    ⟨some "p1", some "Acme Kitchens", some "1 Main St"⟩
    rfl rfl rfl rfl rfl rfl rfl rfl rfl rfl
  refine ⟨h.1, h.2.1, h.2.2.2.1, ?_⟩
  have h2 := h.2.2.2.2 1 ⟨some "p2", some "Beta Kitchens", some "2 Side St"⟩
    ⟨some "http://beta.example"⟩ rfl (by decide) rfl
  rw [h2]
  decide

/-- C3: on a fetched page body the extractor returns the address
captured by the `mailto:` pattern whenever that pattern matches —
irrespective of any bare token occurring earlier in the body — otherwise
the first bare email-shaped token, otherwise the empty string; and for a
URL that does not start with the `http` scheme it returns the empty
string with an empty effect trace, i.e. without any network call, no
matter what the network would answer. -/
theorem c3_email_extraction (url : String) (net : String → FetchOutcome) (body : String) :
    (listPrefixOf "http".data url.data = false →
      findEmailFromWebsite url net = ("", [])) ∧
    (listPrefixOf "http".data url.data = true → net url = .resp true body →
      ((∀ e, findMailto body.data = some e →
          (findEmailFromWebsite url net).1 = String.mk e) ∧
       (findMailto body.data = none → ∀ e, findPlain false body.data = some e →
          (findEmailFromWebsite url net).1 = String.mk e) ∧
       (findMailto body.data = none → findPlain false body.data = none →
          (findEmailFromWebsite url net).1 = ""))) := by
  constructor
  · intro hp
    simp [findEmailFromWebsite, hp]
  · intro hp hnet
    have hne := listPrefixOf_http_ne_nil url.data hp
    refine ⟨?_, ?_, ?_⟩
    · intro e he
      simp [findEmailFromWebsite, strTruthy, hne, hp, hnet, extractEmail, he]
    · intro hm0 e he
      simp [findEmailFromWebsite, strTruthy, hne, hp, hnet, extractEmail, hm0, he]
    · intro hm0 hp0
      simp [findEmailFromWebsite, strTruthy, hne, hp, hnet, extractEmail, hm0, hp0]

theorem c3_email_extraction_witness :
    (findEmailFromWebsite "http://acme.example"
        (fun _ => .resp true "Contact: mailto:test@example.com now")).1 =
      "test@example.com" ∧
    (findEmailFromWebsite "http://acme.example"
        (fun _ => .resp true "reach jane@company.co.nz here")).1 =
      "jane@company.co.nz" ∧
    (findEmailFromWebsite "http://acme.example"
        (fun _ => .resp true "nothing to see")).1 = "" ∧
    findEmailFromWebsite "acme.example" (fun _ => .resp true "sales@acme.example") =
      ("", []) := by
  refine ⟨?_, ?_, ?_, ?_⟩
  · exact (((c3_email_extraction "http://acme.example"
      (fun _ => .resp true "Contact: mailto:test@example.com now")
      "Contact: mailto:test@example.com now").2 (by decide) rfl).1
      "test@example.com".data (by decide)).trans rfl
  · exact (((c3_email_extraction "http://acme.example"
      (fun _ => .resp true "reach jane@company.co.nz here")
      "reach jane@company.co.nz here").2 (by decide) rfl).2.1
      (by decide) "jane@company.co.nz".data (by decide)).trans rfl
  · exact ((c3_email_extraction "http://acme.example"
      (fun _ => .resp true "nothing to see")
      "nothing to see").2 (by decide) rfl).2.2 (by decide) (by decide)
  · exact (c3_email_extraction "acme.example"
      (fun _ => .resp true "sales@acme.example") "sales@acme.example").1 (by decide)
